import Mathlib

/-!
Shallow embedding of `src/index-ws.ts`: a socket.io chat relay with an
in-memory sqlite visitor ledger.

The server's event handlers (`io.on("connection")`, `socket.on("disconnect")`,
`socket.on("client chat message")`) run on a single-threaded event loop, so the
system is modelled as a step function from a server state and one event to the
next state plus a list of observable outputs (broadcast deliveries, ledger
operations, console logs).  The `shutdownServer` handler is modelled separately
as a function from an environment of failure flags to the ordered list of
teardown actions it performs.
-/

namespace AyozayChat

/-- JSON-like runtime values, the possible payloads of a socket.io event.
The server never inspects the payload, so no operation on this type is
needed beyond carrying it around. -/
inductive Value where
  | vstr (s : String)
  | vnum (n : Int)
  | vbool (b : Bool)
  | vnull
  | vobj (fields : List (String × Value))

/-- A socket.io application event as seen on the wire: an event-name tag and a
payload.  The spec's abstract names `client-message` / `server-message`
correspond to the source's event-name strings `"client chat message"` /
`"server chat message"`. -/
structure WireEvent where
  type : String
  payload : Value

/-- The inbound chat event name used by the source (`socket.on("client chat message")`). -/
def clientChatEventName : String := "client chat message"

/-- The outbound chat event name used by the source (`io.emit("server chat message")`). -/
def serverChatEventName : String := "server chat message"

/-- One row of the sqlite `visitors` table
(`id INTEGER PRIMARY KEY AUTOINCREMENT, userId TEXT, sessionId TEXT, count INTEGER, time TEXT`). -/
structure Row where
  id : Nat
  userId : String
  sessionId : String
  count : Nat
  time : Nat

/-- Server state: the set of live socket connections, identified by the
per-connection `sessionId` uuid (freshly generated in the connection handler,
one per socket, so it doubles as the connection identifier), the sqlite
`visitors` table, and sqlite's AUTOINCREMENT counter (`this.lastID`). -/
structure ServerState where
  clients : List String
  visitors : List Row
  nextRowId : Nat

/-- The state at server start: no connections, empty `visitors` table,
AUTOINCREMENT counter at 1. -/
def initialState : ServerState := ⟨[], [], 1⟩

/-- Events delivered to the server's handlers by the runtime.

* `connect cookieUserId sessionId now insertFails`: a new socket connection.
  `cookieUserId` is the result of
  `socket.handshake.headers.cookie?.match(/userId=([^;]+)/)?.[1]` (absent when
  there is no cookie or no match; the regex never produces an empty string).
  `sessionId` is the fresh `uuidv4()` value and `now` the wall-clock reading
  sqlite would use for `datetime('now')`; both are environmental inputs, so
  they are carried on the event.  `insertFails` is the failure oracle for the
  `INSERT INTO visitors` statement.
* `disconnect sessionId removeFails`: the socket's `disconnect` event, with the
  failure oracle for the `DELETE FROM visitors` statement.
* `chat sessionId message`: a `"client chat message"` event from the socket. -/
inductive Event where
  | connect (cookieUserId : Option String) (sessionId : String) (now : Nat) (insertFails : Bool)
  | disconnect (sessionId : String) (removeFails : Bool)
  | chat (sessionId : String) (message : Value)

/-- Observable outputs of one handler invocation. `broadcast origin targets ev`
is `io.emit`: it delivers `ev` to every connection in `targets`, and is tagged
with the session whose handler issued it.  `ledgerInsert` / `ledgerRemove` /
`ledgerListAll` are the issued sqlite statements (`INSERT INTO visitors`,
`DELETE FROM visitors WHERE sessionId = ?`, `SELECT * FROM visitors`). `log` is
`console.log` and `logError` is `console.error` (log text abbreviated). -/
inductive Output where
  | broadcast (origin : String) (targets : List String) (ev : WireEvent)
  | ledgerInsert (userId : String) (sessionId : String) (count : Nat) (time : Nat)
  | ledgerRemove (sessionId : String)
  | ledgerListAll
  | log (msg : String)
  | logError (msg : String)

/-- JavaScript truthiness of `cookieUserId` in `if (cookieUserId)`:
`undefined` and the empty string are falsy. -/
def jsTruthy : Option String → Bool
  | none => false
  | some s => s != ""

def userConnectedLogMsg : String := "A user connected with clientId"

def removeFailedLogMsg : String := "Failed to remove session with sessionId"

def removedSessionLogMsg : String := "Removed session with sessionId"

def userDisconnectedLogMsg : String := "User disconnected"

def messageFromSessionLogMsg : String := "Message from session"

/-- One step of the server: process one event in the appropriate handler.

* `connect` (lines 93-113): when the handler runs the socket is already part of
  the engine, so `io.engine.clientsCount` counts it; then, iff `cookieUserId`
  is truthy, the row `(userId, sessionId, count, datetime('now'))` is inserted.
  The insert's completion callback ignores its error argument (it is declared
  as `function ()`), so on failure nothing is logged about the failure and the
  callback still logs the connection and calls `logVisitors()`; on failure the
  table itself is unchanged.
* `disconnect` (lines 115-130): the runtime has already removed the socket, and
  the handler issues `DELETE FROM visitors WHERE sessionId = ?`; the delete
  callback logs the error and returns early on failure, otherwise logs the
  removal and calls `logVisitors()`.
* `chat` (lines 132-138): only a live socket's handler can fire; it logs and
  re-emits the message verbatim via `io.emit("server chat message", message)`
  to all currently connected sockets, the sender included. -/
def step (st : ServerState) : Event → ServerState × List Output
  | .connect cookieUserId sessionId now insertFails =>
    let clients' := st.clients ++ [sessionId]
    let numberOfVistors := clients'.length
    if jsTruthy cookieUserId then
      let uid := cookieUserId.getD ""
      if insertFails then
        ({ st with clients := clients' },
         [Output.ledgerInsert uid sessionId numberOfVistors now,
          Output.log userConnectedLogMsg,
          Output.ledgerListAll])
      else
        ({ st with
            clients := clients',
            visitors := st.visitors ++ [⟨st.nextRowId, uid, sessionId, numberOfVistors, now⟩],
            nextRowId := st.nextRowId + 1 },
         [Output.ledgerInsert uid sessionId numberOfVistors now,
          Output.log userConnectedLogMsg,
          Output.ledgerListAll])
    else
      ({ st with clients := clients' }, [])
  | .disconnect sessionId removeFails =>
    let clients' := st.clients.filter (· ≠ sessionId)
    if removeFails then
      ({ st with clients := clients' },
       [Output.ledgerRemove sessionId,
        Output.log userDisconnectedLogMsg,
        Output.logError removeFailedLogMsg])
    else
      ({ st with
          clients := clients',
          visitors := st.visitors.filter (fun r => r.sessionId ≠ sessionId) },
       [Output.ledgerRemove sessionId,
        Output.log userDisconnectedLogMsg,
        Output.log removedSessionLogMsg,
        Output.ledgerListAll])
  | .chat sessionId message =>
    if sessionId ∈ st.clients then
      (st, [Output.log messageFromSessionLogMsg,
            Output.broadcast sessionId st.clients ⟨serverChatEventName, message⟩])
    else
      (st, [])

/-- Process a whole trace of events, collecting all outputs in order. -/
def run (st : ServerState) : List Event → ServerState × List Output
  | [] => (st, [])
  | e :: rest =>
    let s1 := step st e
    let s2 := run s1.1 rest
    (s2.1, s1.2 ++ s2.2)

/-- The ordered list of wire events delivered to connection `c` by a list of
outputs: each `broadcast` whose target set contains `c` delivers its event. -/
def deliveriesTo (c : String) (outs : List Output) : List WireEvent :=
  outs.filterMap fun o =>
    match o with
    | .broadcast _ targets ev => if c ∈ targets then some ev else none
    | _ => none

/-- The ordered list of payloads broadcast with originating session `S`. -/
def broadcastsFrom (S : String) (outs : List Output) : List Value :=
  outs.filterMap fun o =>
    match o with
    | .broadcast orig _ ev => if orig = S then some ev.payload else none
    | _ => none

/-- The ordered list of payloads of chat events received from session `S`
while `S` is live, along a trace. -/
def activeInputs (S : String) (st : ServerState) : List Event → List Value
  | [] => []
  | e :: rest =>
    (match e with
     | .chat sid p => if sid = S ∧ sid ∈ st.clients then [p] else []
     | _ => []) ++ activeInputs S (step st e).1 rest

/-- `true` iff the event is a `connect` establishing session `s`. -/
def connectsSession (s : String) : Event → Bool
  | .connect _ sid _ _ => sid == s
  | _ => false

/-- `true` iff the output is a `console.error` entry. -/
def isLogError : Output → Bool
  | .logError _ => true
  | _ => false

/-- `true` iff the output is an issued `INSERT INTO visitors` statement. -/
def isLedgerInsert : Output → Bool
  | .ledgerInsert _ _ _ _ => true
  | _ => false

/-- Environment of the `shutdownServer` handler (lines 42-71): whether
`io.close` reports an error to its callback, whether the HTTP server is still
listening, and whether the promisified `server.close` / `db.close` calls
reject (which the `try` block surfaces as a thrown error). -/
structure ShutdownEnv where
  ioCloseFails : Bool
  serverListening : Bool
  serverCloseFails : Bool
  dbCloseFails : Bool

/-- Teardown actions performed by `shutdownServer`, in order: the three close
calls, console output, and the final `process.exit`. -/
inductive ShutdownAction where
  | ioClose
  | serverClose
  | dbClose
  | log (msg : String)
  | logError (msg : String)
  | exit (code : Nat)
deriving DecidableEq

def shuttingDownMsg : String := "Shutting down gracefully..."

def ioCloseFailMsg : String := "Failed to close the socket engine"

def closedSocketMsg : String := "Closed the socket connection."

def closedServerMsg : String := "Closed the server connection."

def serverAlreadyClosedMsg : String := "Server is already closed."

def closedDbMsg : String := "Closed the database connection."

def shutdownErrMsg : String := "Error during shutdown"

/-- The `shutdownServer` handler (lines 42-71), as the ordered list of actions
it performs.  `io.close` reports a failure to its callback (logged) and does
not throw, so execution always continues to the `server.listening` check.
`await closeServer()` and `await closeDb()` can throw: the first thrown error
jumps to the `catch` block (skipping the remaining close calls), which logs
it; the `finally` block then runs `process.exit(0)` unconditionally. -/
def shutdownServer (env : ShutdownEnv) : List ShutdownAction :=
  let ioSteps : List ShutdownAction :=
    [ShutdownAction.log shuttingDownMsg, ShutdownAction.ioClose] ++
      (if env.ioCloseFails then [ShutdownAction.logError ioCloseFailMsg]
       else [ShutdownAction.log closedSocketMsg])
  let serverSteps : List ShutdownAction × Bool :=
    if env.serverListening then
      if env.serverCloseFails then ([ShutdownAction.serverClose], true)
      else ([ShutdownAction.serverClose, ShutdownAction.log closedServerMsg], false)
    else ([ShutdownAction.log serverAlreadyClosedMsg], false)
  let dbSteps : List ShutdownAction × Bool :=
    if serverSteps.2 then ([], true)
    else if env.dbCloseFails then ([ShutdownAction.dbClose], true)
    else ([ShutdownAction.dbClose, ShutdownAction.log closedDbMsg], false)
  let catchSteps : List ShutdownAction :=
    if dbSteps.2 then [ShutdownAction.logError shutdownErrMsg] else []
  ioSteps ++ serverSteps.1 ++ dbSteps.1 ++ catchSteps ++ [ShutdownAction.exit 0]

/-! ### Helper lemmas about `step` -/

theorem connect_clients (st : ServerState) (c : Option String) (sid : String) (now : Nat)
    (f : Bool) :
    (step st (Event.connect c sid now f)).1.clients = st.clients ++ [sid] := by
  simp only [step]
  split
  · split <;> rfl
  · rfl

theorem connect_no_broadcast (st : ServerState) (c : Option String) (sid : String) (now : Nat)
    (f : Bool) :
    ∀ o ∈ (step st (Event.connect c sid now f)).2, ∀ orig targets ev,
      o ≠ Output.broadcast orig targets ev := by
  simp only [step]
  split
  · split <;> simp
  · simp

theorem disconnect_clients (st : ServerState) (sid : String) (b : Bool) :
    (step st (Event.disconnect sid b)).1.clients = st.clients.filter (· ≠ sid) := by
  cases b <;> rfl

theorem disconnect_no_broadcast (st : ServerState) (sid : String) (b : Bool) :
    ∀ o ∈ (step st (Event.disconnect sid b)).2, ∀ orig targets ev,
      o ≠ Output.broadcast orig targets ev := by
  cases b <;> simp [step]

theorem chat_state (st : ServerState) (sid : String) (p : Value) :
    (step st (Event.chat sid p)).1 = st := by
  simp only [step]
  split <;> rfl

theorem chat_broadcast_only_to_clients (st : ServerState) (sid : String) (p : Value) :
    ∀ o ∈ (step st (Event.chat sid p)).2, ∀ orig targets ev,
      o = Output.broadcast orig targets ev → targets = st.clients := by
  simp only [step]
  split
  · intro o ho orig targets ev heq
    simp only [List.mem_cons, List.not_mem_nil, or_false] at ho
    rcases ho with rfl | rfl
    · simp at heq
    · injection heq with h1 h2 h3
      exact h2.symm
  · simp

theorem broadcastsFrom_append (S : String) (a b : List Output) :
    broadcastsFrom S (a ++ b) = broadcastsFrom S a ++ broadcastsFrom S b := by
  simp [broadcastsFrom, List.filterMap_append]

theorem chat_outputs_eq (st1 st2 : ServerState) (h : st1.clients = st2.clients)
    (v : String) (p : Value) :
    (step st1 (Event.chat v p)).2 = (step st2 (Event.chat v p)).2 := by
  simp only [step, h]
  split <;> rfl

/-! ### Claim theorems -/

/-- C1: every inbound chat message from a live session `S` is forwarded
verbatim: the handler emits exactly one broadcast, carrying the payload
unchanged, whose target set is the full set of live connections; every live
connection, the sender `S` included, is delivered exactly that one event. -/
theorem chat_broadcasts_to_all_including_sender (st : ServerState) (S : String) (p : Value)
    (h : S ∈ st.clients) :
    (step st (Event.chat S p)).2 =
        [Output.log messageFromSessionLogMsg,
         Output.broadcast S st.clients ⟨serverChatEventName, p⟩]
      ∧ (∀ c ∈ st.clients,
          deliveriesTo c (step st (Event.chat S p)).2 = [⟨serverChatEventName, p⟩])
      ∧ S ∈ st.clients := by
  refine ⟨by simp [step, h], ?_, h⟩
  intro c hc
  simp [step, h, deliveriesTo, hc]

/-- Witness for C1: with sessions `S1`, `S2` live, a `"hello"` chat message
from `S1` is delivered to both `S1` and `S2`. -/
theorem chat_broadcasts_to_all_including_sender_witness :
    (step ⟨["S1", "S2"], [], 1⟩ (Event.chat "S1" (Value.vstr "hello"))).2 =
        [Output.log messageFromSessionLogMsg,
         Output.broadcast "S1" ["S1", "S2"] ⟨serverChatEventName, Value.vstr "hello"⟩]
      ∧ (∀ c ∈ (["S1", "S2"] : List String),
          deliveriesTo c (step ⟨["S1", "S2"], [], 1⟩ (Event.chat "S1" (Value.vstr "hello"))).2
            = [⟨serverChatEventName, Value.vstr "hello"⟩])
      ∧ "S1" ∈ (["S1", "S2"] : List String) :=
  chat_broadcasts_to_all_including_sender ⟨["S1", "S2"], [], 1⟩ "S1" (Value.vstr "hello")
    (by decide)

/-- C5: on disconnect, the session is removed from the registry immediately
(the post-state's client set is the old one with `sid` filtered out, so `sid`
is never live afterwards), and the ledger receives `DELETE FROM visitors WHERE
sessionId = sid` — unconditionally, whether or not the delete will fail and
whether or not any insert was ever made for this session. -/
theorem disconnect_unregisters_and_notifies_ledger (st : ServerState) (sid : String)
    (b : Bool) :
    sid ∉ (step st (Event.disconnect sid b)).1.clients
      ∧ (step st (Event.disconnect sid b)).1.clients = st.clients.filter (· ≠ sid)
      ∧ Output.ledgerRemove sid ∈ (step st (Event.disconnect sid b)).2 := by
  refine ⟨?_, disconnect_clients st sid b, ?_⟩
  · rw [disconnect_clients]
    simp [List.mem_filter]
  · cases b <;> simp [step]

/-- C8: unregistering is idempotent — running the disconnect handler a second
time for the same session id leaves the server state (registry and `visitors`
table) exactly as after the first run, and the second run reports no error. -/
theorem unregister_idempotent (st : ServerState) (sid : String) :
    (step (step st (Event.disconnect sid false)).1 (Event.disconnect sid false)).1
        = (step st (Event.disconnect sid false)).1
      ∧ ((step (step st (Event.disconnect sid false)).1 (Event.disconnect sid false)).2.all
          fun o => !isLogError o) = true := by
  obtain ⟨cs, vs, n⟩ := st
  constructor
  · simp [step, List.filter_filter]
  · simp [step, isLogError]

/-- C10: the chat handler performs no runtime type check on the payload: for
an arbitrary runtime value `v` — string or not — the broadcast event carries
`v` itself, and nothing is rejected. -/
theorem payload_forwarded_without_validation (st : ServerState) (S : String) (v : Value)
    (h : S ∈ st.clients) :
    (step st (Event.chat S v)).2 =
      [Output.log messageFromSessionLogMsg,
       Output.broadcast S st.clients ⟨serverChatEventName, v⟩] := by
  simp [step, h]

/-- Witness for C10: a `null` payload (a non-string value) is echoed unchanged
to all live connections. -/
theorem payload_forwarded_without_validation_witness :
    (step ⟨["S1", "S2"], [], 1⟩ (Event.chat "S2" Value.vnull)).2 =
      [Output.log messageFromSessionLogMsg,
       Output.broadcast "S2" ["S1", "S2"] ⟨serverChatEventName, Value.vnull⟩] :=
  payload_forwarded_without_validation ⟨["S1", "S2"], [], 1⟩ "S2" Value.vnull (by decide)

/-- C6: wire shape of the chat exchange.  The spec's abstract event names
`client-message` / `server-message` denote the source's event strings
`"client chat message"` / `"server chat message"` (see `WireEvent`).  For an
inbound chat event carrying a string payload `s` from a live session `S`:
every live connection is delivered exactly the event
`(serverChatEventName, s)`, and every broadcast output produced by the handler
carries the server event name and that same string payload. -/
theorem wire_event_shape (st : ServerState) (S s : String) (h : S ∈ st.clients) :
    (∀ c ∈ st.clients,
        deliveriesTo c (step st (Event.chat S (Value.vstr s))).2
          = [⟨serverChatEventName, Value.vstr s⟩])
      ∧ ∀ o ∈ (step st (Event.chat S (Value.vstr s))).2, ∀ orig targets ev,
          o = Output.broadcast orig targets ev →
            ev.type = serverChatEventName ∧ ev.payload = Value.vstr s := by
  constructor
  · intro c hc
    simp [step, h, deliveriesTo, hc]
  · intro o ho orig targets ev heq
    simp only [step, if_pos h, List.mem_cons, List.not_mem_nil, or_false] at ho
    rcases ho with rfl | rfl
    · simp at heq
    · injection heq with h1 h2 h3
      subst h3
      exact ⟨rfl, rfl⟩

/-- Witness for C6: the concrete two-session exchange of Scenario A. -/
theorem wire_event_shape_witness :
    (∀ c ∈ (["S1", "S2"] : List String),
        deliveriesTo c (step ⟨["S1", "S2"], [], 1⟩ (Event.chat "S1" (Value.vstr "hi"))).2
          = [⟨serverChatEventName, Value.vstr "hi"⟩])
      ∧ ∀ o ∈ (step ⟨["S1", "S2"], [], 1⟩ (Event.chat "S1" (Value.vstr "hi"))).2,
          ∀ orig targets ev, o = Output.broadcast orig targets ev →
            ev.type = serverChatEventName ∧ ev.payload = Value.vstr "hi" :=
  wire_event_shape ⟨["S1", "S2"], [], 1⟩ "S1" "hi" (by decide)

/-- C4: on connection establishment a ledger insert is issued iff the
extracted prior user identifier is truthy — i.e. present, the cookie-regex
extraction never producing an empty string — and when present it carries
`(userId, sessionId, count, now)`, where `count` is `io.engine.clientsCount`
read at handler entry: the registry size with the new connection already
counted, hence `1` for a sole connection.  The count is captured before the
ledger insert is issued. -/
theorem connect_ledger_insert_iff (st : ServerState) (cookie : Option String)
    (sid : String) (now : Nat) (f : Bool) :
    (((step st (Event.connect cookie sid now f)).2.any isLedgerInsert) = true
        ↔ ∃ uid, cookie = some uid ∧ uid ≠ "")
      ∧ (∀ uid, cookie = some uid → uid ≠ "" →
          Output.ledgerInsert uid sid (st.clients.length + 1) now
            ∈ (step st (Event.connect cookie sid now f)).2)
      ∧ (st.clients = [] → ∀ uid, cookie = some uid → uid ≠ "" →
          Output.ledgerInsert uid sid 1 now ∈ (step st (Event.connect cookie sid now f)).2) := by
  refine ⟨?_, ?_, ?_⟩
  · cases cookie with
    | none => cases f <;> simp [step, jsTruthy, isLedgerInsert]
    | some uid =>
      by_cases huid : uid = "" <;>
        cases f <;>
          simp [step, jsTruthy, isLedgerInsert, huid]
  · rintro uid rfl huid
    cases f <;> simp [step, jsTruthy, huid]
  · rintro hempty uid rfl huid
    cases f <;> simp [step, jsTruthy, huid, hempty]

/-- Witness for C4: Scenario B — the sole connection `S1` with prior user
identifier `u1` yields a ledger insert `(u1, S1, 1, now)`. -/
theorem connect_ledger_insert_iff_witness :
    Output.ledgerInsert "u1" "S1" 1 0
      ∈ (step initialState (Event.connect (some "u1") "S1" 0 false)).2 :=
  (connect_ledger_insert_iff initialState (some "u1") "S1" 0 false).2.2 rfl "u1" rfl
    (by decide)

/-- If `s` is not live and the trace never establishes a connection with
session id `s`, then `s` stays out of the registry and no broadcast along the
trace targets `s`. -/
theorem run_excludes_aux (s : String) (tr : List Event) :
    ∀ st : ServerState, s ∉ st.clients →
      (tr.all fun e => !connectsSession s e) = true →
      s ∉ (run st tr).1.clients
        ∧ ∀ o ∈ (run st tr).2, ∀ orig targets ev,
            o = Output.broadcast orig targets ev → s ∉ targets := by
  induction tr with
  | nil =>
    intro st hs _
    exact ⟨hs, by simp [run]⟩
  | cons e rest ih =>
    intro st hs hall
    simp only [List.all_cons, Bool.and_eq_true] at hall
    obtain ⟨he, hrest⟩ := hall
    have hstep_clients : s ∉ (step st e).1.clients := by
      cases e with
      | connect c sid now f =>
        have hne : sid ≠ s := by simpa [connectsSession] using he
        rw [connect_clients]
        simp [List.mem_append, hs, Ne.symm hne]
      | disconnect sid b =>
        rw [disconnect_clients]
        intro hmem
        exact hs (List.mem_of_mem_filter hmem)
      | chat sid p =>
        rw [chat_state]
        exact hs
    have hstep_out : ∀ o ∈ (step st e).2, ∀ orig targets ev,
        o = Output.broadcast orig targets ev → s ∉ targets := by
      cases e with
      | connect c sid now f =>
        intro o ho orig targets ev heq
        exact absurd heq (connect_no_broadcast st c sid now f o ho orig targets ev)
      | disconnect sid b =>
        intro o ho orig targets ev heq
        exact absurd heq (disconnect_no_broadcast st sid b o ho orig targets ev)
      | chat sid p =>
        intro o ho orig targets ev heq
        rw [chat_broadcast_only_to_clients st sid p o ho orig targets ev heq]
        exact hs
    have hrec := ih (step st e).1 hstep_clients hrest
    refine ⟨by simpa [run] using hrec.1, ?_⟩
    intro o ho orig targets ev heq
    have hsplit : (run st (e :: rest)).2 = (step st e).2 ++ (run (step st e).1 rest).2 := rfl
    rw [hsplit] at ho
    rcases List.mem_append.mp ho with ho | ho
    · exact hstep_out o ho orig targets ev heq
    · exact hrec.2 o ho orig targets ev heq

/-- C2: once a session `s` has been unregistered by its disconnect handler, no
broadcast issued by any later event delivers to `s`'s connection, as long as
no new connection is established under the same session id (session ids are
fresh uuids, so they are never reused). -/
theorem no_delivery_after_unregister (st : ServerState) (s : String) (b : Bool)
    (tr : List Event)
    (h : (tr.all fun e => !connectsSession s e) = true) :
    ∀ o ∈ (run (step st (Event.disconnect s b)).1 tr).2,
      ∀ orig targets ev, o = Output.broadcast orig targets ev → s ∉ targets := by
  have hs : s ∉ (step st (Event.disconnect s b)).1.clients := by
    rw [disconnect_clients]
    simp [List.mem_filter]
  exact (run_excludes_aux s tr _ hs h).2

/-- Witness for C2: Scenario C — `S1` disconnects, then a chat message from
`S2` is broadcast; the resulting broadcast output of the run targets exactly
`["S2"]`, and the theorem applied to that concrete output shows `S1` is not
among its targets. -/
theorem no_delivery_after_unregister_witness :
    "S1" ∉ (["S2"] : List String) := by
  refine no_delivery_after_unregister ⟨["S1", "S2"], [], 1⟩ "S1" false
    [Event.chat "S2" (Value.vstr "hi")] (by decide)
    (Output.broadcast "S2" ["S2"] ⟨serverChatEventName, Value.vstr "hi"⟩)
    ?_ "S2" ["S2"] ⟨serverChatEventName, Value.vstr "hi"⟩ rfl
  show Output.broadcast "S2" ["S2"] ⟨serverChatEventName, Value.vstr "hi"⟩
      ∈ [Output.log messageFromSessionLogMsg,
         Output.broadcast "S2" ["S2"] ⟨serverChatEventName, Value.vstr "hi"⟩]
  exact List.mem_cons_of_mem _ (List.mem_cons_self _ _)

theorem broadcastsFrom_connect (S : String) (st : ServerState) (c : Option String)
    (sid : String) (now : Nat) (f : Bool) :
    broadcastsFrom S (step st (Event.connect c sid now f)).2 = [] := by
  simp only [step]
  split
  · split <;> simp [broadcastsFrom]
  · simp [broadcastsFrom]

theorem broadcastsFrom_disconnect (S : String) (st : ServerState) (sid : String) (b : Bool) :
    broadcastsFrom S (step st (Event.disconnect sid b)).2 = [] := by
  cases b <;> simp [step, broadcastsFrom]

theorem broadcastsFrom_chat (S : String) (st : ServerState) (sid : String) (p : Value) :
    broadcastsFrom S (step st (Event.chat sid p)).2
      = if sid = S ∧ sid ∈ st.clients then [p] else [] := by
  by_cases hmem : sid ∈ st.clients
  · by_cases hS : sid = S
    · subst hS
      simp [step, hmem, broadcastsFrom]
    · simp [step, hmem, hS, broadcastsFrom]
  · simp [step, hmem, broadcastsFrom]

/-- C3: along any trace of events, the ordered sequence of broadcast payloads
originating from session `S` equals the ordered sequence of chat payloads
received from `S` while `S` was live.  Outputs are emitted in the single
event-processing order, which is also the order in which each receiving peer
observes its deliveries, so every peer observes `S`'s messages in `S`'s
original send order. -/
theorem per_session_broadcast_order (S : String) (tr : List Event) :
    ∀ st : ServerState, broadcastsFrom S (run st tr).2 = activeInputs S st tr := by
  induction tr with
  | nil =>
    intro st
    simp [run, broadcastsFrom, activeInputs]
  | cons e rest ih =>
    intro st
    have hrun : (run st (e :: rest)).2 = (step st e).2 ++ (run (step st e).1 rest).2 := rfl
    rw [hrun, broadcastsFrom_append, ih]
    simp only [activeInputs]
    congr 1
    cases e with
    | connect c sid now f => simpa using broadcastsFrom_connect S st c sid now f
    | disconnect sid b => simpa using broadcastsFrom_disconnect S st sid b
    | chat sid p => simpa using broadcastsFrom_chat S st sid p

/-- C7 counterexample: a failing ledger insert is not logged.  The insert's
completion callback is declared `function ()`, ignoring the error argument, so
when the `INSERT INTO visitors` for the first connection fails, the handler's
outputs are exactly the issued insert, the ordinary connection log, and the
`logVisitors()` query — no `console.error` entry at all.  This refutes the
claim that every ledger failure, on insert as on remove, is logged. -/
theorem insert_failure_not_logged :
    (step initialState (Event.connect (some "u1") "S1" 0 true)).2
        = [Output.ledgerInsert "u1" "S1" 1 0, Output.log userConnectedLogMsg,
           Output.ledgerListAll]
      ∧ ((step initialState (Event.connect (some "u1") "S1" 0 true)).2.all
          fun o => !isLogError o) = true := by
  exact ⟨rfl, rfl⟩

/-- C7 amended: a ledger failure, on insert or on remove, never blocks or
reverses the corresponding registry mutation — the registry contents after the
event are identical whether the ledger operation fails or succeeds, a failing
remove is logged (while a failing insert is silently swallowed, see the
counterexample), and the chat/broadcast path behaves identically afterwards. -/
theorem ledger_failure_never_blocks_registry (st : ServerState) (c : Option String)
    (sid : String) (now : Nat) :
    ((step st (Event.connect c sid now true)).1.clients
        = (step st (Event.connect c sid now false)).1.clients)
      ∧ ((step st (Event.disconnect sid true)).1.clients
        = (step st (Event.disconnect sid false)).1.clients)
      ∧ Output.logError removeFailedLogMsg ∈ (step st (Event.disconnect sid true)).2
      ∧ ∀ v p, (step (step st (Event.connect c sid now true)).1 (Event.chat v p)).2
          = (step (step st (Event.connect c sid now false)).1 (Event.chat v p)).2 := by
  refine ⟨?_, ?_, ?_, ?_⟩
  · rw [connect_clients, connect_clients]
  · rw [disconnect_clients, disconnect_clients]
  · simp [step]
  · intro v p
    exact chat_outputs_eq _ _ (by rw [connect_clients, connect_clients]) v p

/-- C9 counterexample: when closing the HTTP listener fails during shutdown,
the thrown error jumps to the `catch` block and the database close is skipped
— shutdown does not continue to the next resource.  Concretely, with the
listener still listening and `server.close` failing (other failure flags
clear), the teardown trace contains no `dbClose` action, although it does log
the error and still exits with code 0. -/
theorem listener_failure_skips_db_close :
    ShutdownAction.dbClose ∉ shutdownServer ⟨false, true, true, false⟩
      ∧ ShutdownAction.logError shutdownErrMsg ∈ shutdownServer ⟨false, true, true, false⟩
      ∧ (shutdownServer ⟨false, true, true, false⟩).getLast?
          = some (ShutdownAction.exit 0) := by
  decide

/-- C9 amended: on a termination signal the teardown closes the socket
multiplexer, then the HTTP listener, then the ledger database, in that order
on a clean run, and always finishes with `process.exit(0)`.  A failure of
`io.close` is logged and shutdown continues; a failure closing the listener
(or the database) is caught and logged, but aborts the remaining close steps
instead of continuing — in particular a listener-close failure skips the
database close.  The process exits with code 0 in every case. -/
theorem shutdown_sequence (i l s d : Bool) :
    ((shutdownServer ⟨i, l, s, d⟩).getLast? = some (ShutdownAction.exit 0))
      ∧ ShutdownAction.ioClose ∈ shutdownServer ⟨i, l, s, d⟩
      ∧ (i = true → ShutdownAction.logError ioCloseFailMsg ∈ shutdownServer ⟨i, l, s, d⟩
          ∧ (l = true → ShutdownAction.serverClose ∈ shutdownServer ⟨i, l, s, d⟩))
      ∧ (l = true → s = true → ShutdownAction.dbClose ∉ shutdownServer ⟨i, l, s, d⟩
          ∧ ShutdownAction.logError shutdownErrMsg ∈ shutdownServer ⟨i, l, s, d⟩)
      ∧ ((l && s) = false → ShutdownAction.dbClose ∈ shutdownServer ⟨i, l, s, d⟩)
      ∧ ((l && s || d) = true →
          ShutdownAction.logError shutdownErrMsg ∈ shutdownServer ⟨i, l, s, d⟩)
      ∧ (i = false ∧ l = true ∧ s = false ∧ d = false →
          shutdownServer ⟨i, l, s, d⟩ =
            [ShutdownAction.log shuttingDownMsg, ShutdownAction.ioClose,
             ShutdownAction.log closedSocketMsg, ShutdownAction.serverClose,
             ShutdownAction.log closedServerMsg, ShutdownAction.dbClose,
             ShutdownAction.log closedDbMsg, ShutdownAction.exit 0]) := by
  cases i <;> cases l <;> cases s <;> cases d <;> decide

/-- Witness for C9's amended theorem: the clean shutdown run closes the socket
multiplexer, the listener and the database in order and exits with code 0. -/
theorem shutdown_sequence_witness :
    shutdownServer ⟨false, true, false, false⟩ =
      [ShutdownAction.log shuttingDownMsg, ShutdownAction.ioClose,
       ShutdownAction.log closedSocketMsg, ShutdownAction.serverClose,
       ShutdownAction.log closedServerMsg, ShutdownAction.dbClose,
       ShutdownAction.log closedDbMsg, ShutdownAction.exit 0] :=
  (shutdown_sequence false true false false).2.2.2.2.2.2 ⟨rfl, rfl, rfl, rfl⟩

end AyozayChat
